import Mathlib

/-!
Verification of the FutureMe backend (src/main.py, src/schemas.py).

The repository is a FastAPI + MongoDB service. We give a shallow embedding:
documents are association lists of string keys and BSON-like values, the
document store is an explicit list of documents threaded through each
handler, timestamps are abstract instants passed in by the caller (the
handlers call datetime.utcnow()), and MongoDB ObjectId values are modelled
as natural numbers drawn from a fresh counter. Each HTTP handler in
src/main.py becomes a Lean function from the request (already validated by
pydantic where the source declares Field constraints) and the current store
to a result (Except for handlers that can raise HTTPException) and the new
store.

The actual store handle comes from database.py, which is not part of src/;
the store primitives (find_one, insert_one, find/sort/limit,
find_one_and_update, delete_one) are therefore modelled from the spec's
Document Store Adapter contract (spec section 4.1), which matches standard
MongoDB semantics: equality filters, insertion assigns a fresh identifier,
update merges only the supplied fields, delete removes at most one record.
-/

namespace FutureMe

/-- BSON-like values stored in documents, mirroring the Python values that
flow through src/main.py: None, str, int, bool, ObjectId, datetime, lists
and nested documents. ObjectId is modelled as a Nat identity; datetime as an
abstract Nat instant. -/
inductive Value where
  | vNull : Value
  | vBool : Bool → Value
  | vStr : String → Value
  | vInt : Int → Value
  | vOid : Nat → Value
  | vDT : Nat → Value
  | vList : List Value → Value
  | vDoc : List (String × Value) → Value
  deriving Repr

/-- A document is an association list of fields, modelling a Python dict
(keys are unique in every document the program builds; lookup returns the
first binding). -/
abbrev Doc := List (String × Value)

/-- Python truthiness of a value, as used by the source in tests such as
`if doc.get("_id")` and `req.name or ...`: None, empty strings, zero, empty
collections are falsy; ObjectId and datetime instances are always truthy. -/
def Value.truthy : Value → Bool
  | .vNull => false
  | .vBool b => b
  | .vStr s => !(s == "")
  | .vInt n => !(n == 0)
  | .vOid _ => true
  | .vDT _ => true
  | .vList xs => !xs.isEmpty
  | .vDoc fs => !fs.isEmpty

/-- Models str(ObjectId): the wire string form of a record identity. The
concrete rendering (24 hex characters in MongoDB) is irrelevant to the
claims; we use the decimal rendering of the model identity. -/
def oidStr (n : Nat) : String := toString n

/-- Models datetime.isoformat(): the ISO-8601 rendering of an instant. The
concrete ISO-8601 grammar lives in Python's standard library; we model the
rendering as an injective function of the abstract instant. -/
def isoformat (t : Nat) : String := toString t

/-- Models str(v) for the values str() is applied to in src/main.py (only
ObjectId identities in practice). -/
def Value.pyStr : Value → String
  | .vNull => "None"
  | .vBool b => if b then "True" else "False"
  | .vStr s => s
  | .vInt n => toString n
  | .vOid n => oidStr n
  | .vDT t => isoformat t
  | .vList _ => "<list>"
  | .vDoc _ => "<dict>"

/-- Models `doc.pop(k)`'s effect on the dict: the binding for k is removed. -/
def removeKey (d : Doc) (k : String) : Doc :=
  d.filter (fun p => !(p.1 == k))

/-- Models `doc[k] = v` on a Python dict: if the key is present its value is
replaced in place, otherwise the binding is appended at the end. -/
def setKey (d : Doc) (k : String) (v : Value) : Doc :=
  if d.any (fun p => p.1 == k) then
    d.map (fun p => cond (p.1 == k) (k, v) p)
  else d ++ [(k, v)]

/-- Maps a function over the values of a document, keys unchanged. -/
def mapVals (f : Value → Value) (d : Doc) : Doc :=
  d.map (fun p => (p.1, f p.2))

/-- The body of the serialization loop in serialize_doc (src/main.py lines
41-43): a value with an isoformat attribute (a datetime in this program) is
replaced by its ISO-8601 string; every other value passes through. -/
def renderTS : Value → Value
  | .vDT t => .vStr (isoformat t)
  | v => v

/-- serialize_doc from src/main.py lines 36-44: an empty document is
returned as is; otherwise, if the internal identity field is present and
truthy it is popped and re-emitted as an `id` field holding its string
form (otherwise `id` is set to None), and then every datetime value is
rendered via isoformat. -/
def serialize_doc (doc : Doc) : Doc :=
  if doc.isEmpty then doc
  else
    let doc1 :=
      match doc.lookup "_id" with
      | some v =>
        if v.truthy then setKey (removeKey doc "_id") "id" (.vStr v.pyStr)
        else setKey doc "id" .vNull
      | none => setKey doc "id" .vNull
    mapVals renderTS doc1

/-! Lookup lemmas for the dict operations. -/

theorem beq_false_symm {a b : String} (h : (a == b) = false) :
    (b == a) = false :=
  beq_eq_false_iff_ne.mpr (Ne.symm (beq_eq_false_iff_ne.mp h))

theorem lookup_cons_hit (pk : String) (pv : Value) (d : Doc) (k : String)
    (h : (k == pk) = true) : (((pk, pv) :: d) : Doc).lookup k = some pv := by
  simp only [List.lookup, h]

theorem lookup_cons_miss (pk : String) (pv : Value) (d : Doc) (k : String)
    (h : (k == pk) = false) : (((pk, pv) :: d) : Doc).lookup k = d.lookup k := by
  simp only [List.lookup, h]

theorem lookup_removeKey_self (d : Doc) (k : String) :
    (removeKey d k).lookup k = none := by
  induction d with
  | nil => rfl
  | cons p d ih =>
    obtain ⟨pk, pv⟩ := p
    by_cases hp : pk = k
    · have h1 : (pk == k) = true := beq_iff_eq.mpr hp
      simp only [removeKey, List.filter, h1, Bool.not_true] at ih ⊢
      exact ih
    · have h1 : (pk == k) = false := beq_eq_false_iff_ne.mpr hp
      have h2 : (k == pk) = false := beq_false_symm h1
      simp only [removeKey, List.filter, h1, Bool.not_false] at ih ⊢
      rw [lookup_cons_miss _ _ _ _ h2]
      exact ih

theorem lookup_removeKey_ne (d : Doc) (k k' : String) (h : k' ≠ k) :
    (removeKey d k).lookup k' = d.lookup k' := by
  induction d with
  | nil => rfl
  | cons p d ih =>
    obtain ⟨pk, pv⟩ := p
    by_cases hp : pk = k
    · have h1 : (pk == k) = true := beq_iff_eq.mpr hp
      have h2 : (k' == pk) = false := beq_eq_false_iff_ne.mpr (hp ▸ h)
      simp only [removeKey, List.filter, h1, Bool.not_true] at ih ⊢
      rw [lookup_cons_miss _ _ _ _ h2]
      exact ih
    · have h1 : (pk == k) = false := beq_eq_false_iff_ne.mpr hp
      simp only [removeKey, List.filter, h1, Bool.not_false] at ih ⊢
      by_cases hk : k' = pk
      · have h2 : (k' == pk) = true := beq_iff_eq.mpr hk
        rw [lookup_cons_hit _ _ _ _ h2, lookup_cons_hit _ _ _ _ h2]
      · have h2 : (k' == pk) = false := beq_eq_false_iff_ne.mpr hk
        rw [lookup_cons_miss _ _ _ _ h2, lookup_cons_miss _ _ _ _ h2]
        exact ih

theorem lookup_overwrite_self (d : Doc) (k : String) (v : Value) :
    (d.map (fun p => cond (p.1 == k) (k, v) p)).lookup k
      = (d.lookup k).map (fun _ => v) := by
  induction d with
  | nil => rfl
  | cons p d ih =>
    obtain ⟨pk, pv⟩ := p
    by_cases hp : pk = k
    · have h1 : (pk == k) = true := beq_iff_eq.mpr hp
      have h2 : (k == pk) = true := beq_iff_eq.mpr hp.symm
      simp only [List.map, h1, cond_true]
      rw [lookup_cons_hit _ _ _ _ (beq_iff_eq.mpr rfl),
        lookup_cons_hit _ _ _ _ h2]
      rfl
    · have h1 : (pk == k) = false := beq_eq_false_iff_ne.mpr hp
      have h2 : (k == pk) = false := beq_false_symm h1
      simp only [List.map, h1, cond_false]
      rw [lookup_cons_miss _ _ _ _ h2, lookup_cons_miss _ _ _ _ h2]
      exact ih

theorem lookup_overwrite_ne (d : Doc) (k : String) (v : Value) (k' : String)
    (h : k' ≠ k) :
    (d.map (fun p => cond (p.1 == k) (k, v) p)).lookup k' = d.lookup k' := by
  induction d with
  | nil => rfl
  | cons p d ih =>
    obtain ⟨pk, pv⟩ := p
    by_cases hp : pk = k
    · have h1 : (pk == k) = true := beq_iff_eq.mpr hp
      have h2 : (k' == k) = false := beq_eq_false_iff_ne.mpr h
      have h3 : (k' == pk) = false := hp ▸ h2
      simp only [List.map, h1, cond_true]
      rw [lookup_cons_miss _ _ _ _ h2, lookup_cons_miss _ _ _ _ h3]
      exact ih
    · have h1 : (pk == k) = false := beq_eq_false_iff_ne.mpr hp
      simp only [List.map, h1, cond_false]
      by_cases hk : k' = pk
      · have h2 : (k' == pk) = true := beq_iff_eq.mpr hk
        rw [lookup_cons_hit _ _ _ _ h2, lookup_cons_hit _ _ _ _ h2]
      · have h2 : (k' == pk) = false := beq_eq_false_iff_ne.mpr hk
        rw [lookup_cons_miss _ _ _ _ h2, lookup_cons_miss _ _ _ _ h2]
        exact ih

theorem lookup_append_single_self (d : Doc) (k : String) (v : Value)
    (h : d.lookup k = none) :
    (d ++ [(k, v)]).lookup k = some v := by
  induction d with
  | nil => exact lookup_cons_hit _ _ _ _ (beq_iff_eq.mpr rfl)
  | cons p d ih =>
    obtain ⟨pk, pv⟩ := p
    by_cases hk : k = pk
    · rw [lookup_cons_hit _ _ _ _ (beq_iff_eq.mpr hk)] at h
      exact absurd h (by simp)
    · have h2 : (k == pk) = false := beq_eq_false_iff_ne.mpr hk
      rw [lookup_cons_miss _ _ _ _ h2] at h
      rw [List.cons_append, lookup_cons_miss _ _ _ _ h2]
      exact ih h

theorem lookup_append_single_ne (d : Doc) (k : String) (v : Value)
    (k' : String) (h : k' ≠ k) :
    (d ++ [(k, v)]).lookup k' = d.lookup k' := by
  induction d with
  | nil =>
    simp only [List.nil_append]
    exact lookup_cons_miss _ _ _ _ (beq_eq_false_iff_ne.mpr h)
  | cons p d ih =>
    obtain ⟨pk, pv⟩ := p
    by_cases hk : k' = pk
    · rw [List.cons_append, lookup_cons_hit _ _ _ _ (beq_iff_eq.mpr hk),
        lookup_cons_hit _ _ _ _ (beq_iff_eq.mpr hk)]
    · have h2 : (k' == pk) = false := beq_eq_false_iff_ne.mpr hk
      rw [List.cons_append, lookup_cons_miss _ _ _ _ h2,
        lookup_cons_miss _ _ _ _ h2]
      exact ih

theorem lookup_none_of_not_any (d : Doc) (k : String)
    (h : d.any (fun p => p.1 == k) = false) : d.lookup k = none := by
  induction d with
  | nil => rfl
  | cons p d ih =>
    obtain ⟨pk, pv⟩ := p
    simp only [List.any_cons, Bool.or_eq_false_iff] at h
    have h2 : (k == pk) = false := beq_false_symm h.1
    rw [lookup_cons_miss _ _ _ _ h2]
    exact ih h.2

theorem lookup_isSome_of_any (d : Doc) (k : String)
    (h : d.any (fun p => p.1 == k) = true) : (d.lookup k).isSome := by
  induction d with
  | nil => simp at h
  | cons p d ih =>
    obtain ⟨pk, pv⟩ := p
    by_cases hp : pk = k
    · rw [lookup_cons_hit _ _ _ _ (beq_iff_eq.mpr hp.symm)]
      rfl
    · have h1 : (pk == k) = false := beq_eq_false_iff_ne.mpr hp
      have h2 : (k == pk) = false := beq_false_symm h1
      simp only [List.any_cons, h1, Bool.false_or] at h
      rw [lookup_cons_miss _ _ _ _ h2]
      exact ih h

theorem lookup_setKey_self (d : Doc) (k : String) (v : Value) :
    (setKey d k v).lookup k = some v := by
  unfold setKey
  by_cases hmem : d.any (fun p => p.1 == k) = true
  · rw [if_pos hmem, lookup_overwrite_self]
    obtain ⟨w, hw⟩ := Option.isSome_iff_exists.mp (lookup_isSome_of_any d k hmem)
    rw [hw]
    rfl
  · rw [if_neg hmem]
    exact lookup_append_single_self d k v
      (lookup_none_of_not_any d k (Bool.not_eq_true _ ▸ hmem))

theorem lookup_setKey_ne (d : Doc) (k : String) (v : Value) (k' : String)
    (h : k' ≠ k) :
    (setKey d k v).lookup k' = d.lookup k' := by
  unfold setKey
  by_cases hmem : d.any (fun p => p.1 == k) = true
  · rw [if_pos hmem]
    exact lookup_overwrite_ne d k v k' h
  · rw [if_neg hmem]
    exact lookup_append_single_ne d k v k' h

theorem lookup_mapVals (f : Value → Value) (d : Doc) (k : String) :
    (mapVals f d).lookup k = (d.lookup k).map f := by
  induction d with
  | nil => rfl
  | cons p d ih =>
    obtain ⟨pk, pv⟩ := p
    by_cases hk : k = pk
    · have h2 : (k == pk) = true := beq_iff_eq.mpr hk
      simp only [mapVals, List.map]
      rw [lookup_cons_hit _ _ _ _ h2, lookup_cons_hit _ _ _ _ h2]
      rfl
    · have h2 : (k == pk) = false := beq_eq_false_iff_ne.mpr hk
      simp only [mapVals, List.map] at ih ⊢
      rw [lookup_cons_miss _ _ _ _ h2, lookup_cons_miss _ _ _ _ h2]
      exact ih

/-- Serialization of a document that carries a truthy identity value: the
main branch of serialize_doc. -/
theorem serialize_doc_eq_of_oid (doc : Doc) (x : Nat)
    (h : doc.lookup "_id" = some (Value.vOid x)) :
    serialize_doc doc
      = mapVals renderTS (setKey (removeKey doc "_id") "id" (.vStr (oidStr x))) := by
  have hne : doc.isEmpty = false := by
    cases doc with
    | nil => simp [List.lookup] at h
    | cons p d => rfl
  unfold serialize_doc
  rw [hne, if_neg Bool.false_ne_true, h]
  rfl

/-- C1: serializing a stored record that carries an assigned identity X
yields a document whose id field is the string form of X, with no internal
identity field remaining; every timestamp-valued field is rendered as its
ISO-8601 string and every other field passes through unchanged; the empty
record serializes to the empty object. -/
theorem C1_serialize_doc_roundtrip (doc : Doc) (x : Nat)
    (h : doc.lookup "_id" = some (Value.vOid x)) :
    (serialize_doc doc).lookup "id" = some (.vStr (oidStr x)) ∧
    (serialize_doc doc).lookup "_id" = none ∧
    (∀ k v, k ≠ "_id" → k ≠ "id" → doc.lookup k = some v →
      (serialize_doc doc).lookup k = some (renderTS v)) ∧
    (∀ k t, k ≠ "_id" → k ≠ "id" → doc.lookup k = some (.vDT t) →
      (serialize_doc doc).lookup k = some (.vStr (isoformat t))) ∧
    serialize_doc ([] : Doc) = [] := by
  rw [serialize_doc_eq_of_oid doc x h]
  refine ⟨?_, ?_, ?_, ?_, rfl⟩
  · rw [lookup_mapVals, lookup_setKey_self]
    rfl
  · rw [lookup_mapVals, lookup_setKey_ne _ _ _ _ (by decide),
      lookup_removeKey_self]
    rfl
  · intro k v hk1 hk2 hkv
    rw [lookup_mapVals, lookup_setKey_ne _ _ _ _ hk2,
      lookup_removeKey_ne _ _ _ hk1, hkv]
    rfl
  · intro k t hk1 hk2 hkv
    rw [lookup_mapVals, lookup_setKey_ne _ _ _ _ hk2,
      lookup_removeKey_ne _ _ _ hk1, hkv]
    rfl

theorem C1_serialize_doc_roundtrip_witness :
    (serialize_doc [("_id", .vOid 5), ("email", .vStr "a@x.com"),
        ("created_at", .vDT 3)]).lookup "id" = some (.vStr (oidStr 5)) ∧
    (serialize_doc [("_id", .vOid 5), ("email", .vStr "a@x.com"),
        ("created_at", .vDT 3)]).lookup "_id" = none :=
  ⟨(C1_serialize_doc_roundtrip
      [("_id", .vOid 5), ("email", .vStr "a@x.com"), ("created_at", .vDT 3)]
      5 rfl).1,
   (C1_serialize_doc_roundtrip
      [("_id", .vOid 5), ("email", .vStr "a@x.com"), ("created_at", .vDT 3)]
      5 rfl).2.1⟩

/-! Auth handlers (src/main.py lines 47-100). -/

/-- Models `email.split("@")[0]` (src/main.py line 68): the part of the
email before the first at-sign, or the whole string when there is none. -/
def localPart (email : String) : String :=
  String.mk (email.toList.takeWhile (fun c => !(c == '@')))

/-- Models `req.id_token[:6]` (src/main.py line 88): the first six
characters of the token, or the whole token when it is shorter. -/
def take6 (s : String) : String := String.mk (s.toList.take 6)

/-- HTTPException as raised in src/main.py: a status code and a detail
message. -/
structure HTTPError where
  status_code : Nat
  detail : String
  deriving Repr, DecidableEq

/-- A stored User record, as built by register (src/main.py lines 66-74) and
google_auth (lines 92-99): the dict fields plus the identity assigned by
insert_one. -/
structure UserDoc where
  oid : Nat
  email : String
  name : Option String
  password_hash : Option String
  auth_provider : String
  created_at : Nat
  updated_at : Nat
  deriving Repr, DecidableEq

/-- Modelled from the spec: the user collection behind the db handle from
database.py (not under src/), per the Document Store Adapter contract
(spec section 4.1): insert assigns a new, globally unique identifier (the
nextOid counter) and appends the record; find_one applies an equality
filter and returns the first match. -/
structure UserStore where
  users : List UserDoc
  nextOid : Nat
  deriving Repr, DecidableEq

/-- Models `user_col.find_one({"email": email})`: first stored User whose
email equals the filter value. -/
def findUserByEmail (s : UserStore) (email : String) : Option UserDoc :=
  s.users.find? (fun u => u.email == email)

structure RegisterRequest where
  email : String
  password : String
  name : Option String
  deriving Repr, DecidableEq

/-- Models the Python default `req.name or req.email.split("@")[0]`
(src/main.py line 68). Python `or` tests truthiness, so both a missing name
and an empty-string name fall back to the email's local part. -/
def defaultName (name : Option String) (email : String) : String :=
  match name with
  | some n => if n == "" then localPart email else n
  | none => localPart email

/-- Wire value of `user.get("name")`: null when the field is absent. -/
def optStr : Option String → Value
  | some s => .vStr s
  | none => .vNull

/-- register (src/main.py lines 60-76): reject with HTTP 400 when a User
with the email exists; otherwise insert a User with auth_provider
"password" and return the token (string form of the new identity) plus the
user summary dict with exactly the keys id, email, name. -/
def register (s : UserStore) (now : Nat) (req : RegisterRequest) :
    Except HTTPError Doc × UserStore :=
  match findUserByEmail s req.email with
  | some _ => (.error ⟨400, "Email already registered"⟩, s)
  | none =>
    let user : UserDoc :=
      { oid := s.nextOid
        email := req.email
        name := some (defaultName req.name req.email)
        password_hash := some req.password
        auth_provider := "password"
        created_at := now
        updated_at := now }
    (.ok [("token", .vStr (oidStr s.nextOid)),
          ("user", .vDoc [("id", .vStr (oidStr s.nextOid)),
                          ("email", .vStr req.email),
                          ("name", .vStr (defaultName req.name req.email))])],
     ⟨s.users ++ [user], s.nextOid + 1⟩)

/-- Synthetic email derived in google_auth (src/main.py line 88). -/
def googleEmail (id_token : String) : String :=
  take6 id_token ++ "@googleuser.dev"

/-- google_auth (src/main.py lines 85-100): derive the synthetic email from
the first six characters of the token; reuse the existing User with that
email, or insert a fresh one with auth_provider "google". -/
def google_auth (s : UserStore) (now : Nat) (id_token : String) :
    Doc × UserStore :=
  let email := googleEmail id_token
  match findUserByEmail s email with
  | some u =>
    ([("token", .vStr (oidStr u.oid)),
      ("user", .vDoc [("id", .vStr (oidStr u.oid)),
                      ("email", .vStr u.email),
                      ("name", optStr u.name)])],
     s)
  | none =>
    let user : UserDoc :=
      { oid := s.nextOid
        email := email
        name := some "Google User"
        password_hash := none
        auth_provider := "google"
        created_at := now
        updated_at := now }
    ([("token", .vStr (oidStr s.nextOid)),
      ("user", .vDoc [("id", .vStr (oidStr s.nextOid)),
                      ("email", .vStr email),
                      ("name", optStr user.name)])],
     ⟨s.users ++ [user], s.nextOid + 1⟩)

/-- The user.id field of an auth response document. -/
def userIdOf (d : Doc) : Option Value :=
  match d.lookup "user" with
  | some (.vDoc ud) => ud.lookup "id"
  | _ => none

/-! Demo data used by witnesses. -/

def demoUser : UserDoc :=
  { oid := 1, email := "a@x.com", name := some "a", password_hash := some "p"
    auth_provider := "password", created_at := 0, updated_at := 0 }

def demoStore1 : UserStore := ⟨[demoUser], 2⟩

def demoStore0 : UserStore := ⟨[], 7⟩

/-- C2: register fails with HTTP 400 exactly when a User with the request
email exists at the time of the check; on failure nothing is inserted and
the store is unchanged; on success a User with auth_provider "password" is
appended and the response carries token = string form of the new identity
plus a user summary whose keys are exactly id, email, name. -/
theorem C2_register_conflict (s : UserStore) (now : Nat)
    (req : RegisterRequest) :
    ((∃ u ∈ s.users, u.email = req.email) →
      (register s now req).1 = .error ⟨400, "Email already registered"⟩ ∧
      (register s now req).2 = s) ∧
    ((¬ ∃ u ∈ s.users, u.email = req.email) →
      ∃ u : UserDoc, (register s now req).2.users = s.users ++ [u] ∧
        u.oid = s.nextOid ∧
        u.auth_provider = "password" ∧
        ∃ d : Doc, (register s now req).1 = .ok d ∧
          d.lookup "token" = some (.vStr (oidStr u.oid)) ∧
          ∃ ud, d.lookup "user" = some (.vDoc ud) ∧
            ud.map Prod.fst = ["id", "email", "name"] ∧
            ud.lookup "id" = some (.vStr (oidStr u.oid)) ∧
            ud.lookup "email" = some (.vStr req.email) ∧
            ud.lookup "name" = some (.vStr (defaultName req.name req.email))) := by
  cases hfind : findUserByEmail s req.email with
  | some u0 =>
    have hfind' : s.users.find? (fun u => u.email == req.email) = some u0 := hfind
    have hreg : register s now req
        = (.error ⟨400, "Email already registered"⟩, s) := by
      unfold register
      rw [hfind]
    constructor
    · intro _
      exact ⟨by rw [hreg], by rw [hreg]⟩
    · intro hno
      have hp := @List.find?_some UserDoc
        (fun u => u.email == req.email) u0 s.users hfind'
      exact absurd ⟨u0, List.mem_of_find?_eq_some hfind',
        beq_iff_eq.mp hp⟩ hno
  | none =>
    constructor
    · intro ⟨u, hu, he⟩
      have hx := List.find?_eq_none.mp hfind u hu
      exact absurd (beq_iff_eq.mpr he) hx
    · intro _
      unfold register
      rw [hfind]
      exact ⟨_, rfl, rfl, rfl, _, rfl, rfl, _, rfl, rfl, rfl, rfl, rfl⟩

theorem C2_register_conflict_witness :
    ((register demoStore1 5 ⟨"a@x.com", "q", none⟩).1
        = .error ⟨400, "Email already registered"⟩) ∧
    (∃ u : UserDoc, (register demoStore0 3 ⟨"b@y.com", "p", none⟩).2.users
        = demoStore0.users ++ [u] ∧
      u.oid = demoStore0.nextOid ∧
      u.auth_provider = "password" ∧
      ∃ d : Doc, (register demoStore0 3 ⟨"b@y.com", "p", none⟩).1 = .ok d ∧
        d.lookup "token" = some (.vStr (oidStr u.oid)) ∧
        ∃ ud, d.lookup "user" = some (.vDoc ud) ∧
          ud.map Prod.fst = ["id", "email", "name"] ∧
          ud.lookup "id" = some (.vStr (oidStr u.oid)) ∧
          ud.lookup "email" = some (.vStr "b@y.com") ∧
          ud.lookup "name" = some (.vStr (defaultName none "b@y.com"))) :=
  ⟨((C2_register_conflict demoStore1 5 ⟨"a@x.com", "q", none⟩).1
      ⟨demoUser, by simp [demoStore1], rfl⟩).1,
   (C2_register_conflict demoStore0 3 ⟨"b@y.com", "p", none⟩).2
      (by simp [demoStore0])⟩

/-- Characters kept by localPart all differ from the at-sign. -/
theorem localPart_no_at (email : String) :
    ∀ c ∈ (localPart email).toList, c ≠ '@' := by
  intro c hc
  have hmem : c ∈ email.toList.takeWhile (fun c => !(c == '@')) := by
    simpa [localPart] using hc
  have := List.mem_takeWhile_imp hmem
  simpa using this

/-- localPart is the part of the email before the first at-sign: the email
decomposes as localPart ++ rest where rest is empty (no at-sign at all) or
starts with the at-sign. -/
theorem localPart_decomposition (email : String) :
    ∃ rest : List Char,
      email.toList = (localPart email).toList ++ rest ∧
      (rest = [] ∨ rest.head? = some '@') := by
  refine ⟨email.toList.dropWhile (fun c => !(c == '@')), ?_, ?_⟩
  · simp [localPart]
  · cases hd : email.toList.dropWhile (fun c => !(c == '@')) with
    | nil => exact Or.inl rfl
    | cons a l =>
      refine Or.inr ?_
      have ha := List.head?_dropWhile_not (fun c => !(c == '@')) email.toList
      rw [hd] at ha
      simp only [List.head?] at ha ⊢
      have hae : a = '@' := by simpa using ha
      rw [hae]

/-- C3 counterexample: a Register request that supplies the name field with
the empty string. The claim says a supplied name is stored; the code
evaluates `req.name or req.email.split("@")[0]` and Python treats the empty
string as falsy, so the stored name is the email's local part "a", not the
supplied "". -/
theorem C3_supplied_name_counterexample :
    ((register ⟨[], 1⟩ 0 ⟨"a@x.com", "p", some ""⟩).2.users.map
        (fun u => u.name) = [some "a"]) ∧
    some ("a" : String) ≠ some ("" : String) := by
  constructor
  · rfl
  · simp

/-- C3 (amended): for every successful Register, the stored and returned
name is `defaultName`: the supplied name when it is non-empty, and the local
part of the email (the substring before the first at-sign) when the name is
absent or empty. -/
theorem C3_register_default_name (s : UserStore) (now : Nat)
    (req : RegisterRequest) (h : findUserByEmail s req.email = none) :
    (∃ u : UserDoc, (register s now req).2.users = s.users ++ [u] ∧
      u.name = some (defaultName req.name req.email) ∧
      ∃ d ud, (register s now req).1 = .ok d ∧
        d.lookup "user" = some (.vDoc ud) ∧
        ud.lookup "name" = some (.vStr (defaultName req.name req.email))) ∧
    (req.name = none → defaultName req.name req.email = localPart req.email) ∧
    (req.name = some "" →
      defaultName req.name req.email = localPart req.email) ∧
    (∀ n, req.name = some n → n ≠ "" → defaultName req.name req.email = n) := by
  refine ⟨?_, ?_, ?_, ?_⟩
  · unfold register
    rw [h]
    exact ⟨_, rfl, rfl, _, _, rfl, rfl, rfl⟩
  · intro hn
    rw [hn]
    rfl
  · intro hn
    rw [hn]
    rfl
  · intro n hn hne
    rw [hn]
    simp [defaultName, hne]

theorem C3_register_default_name_witness :
    (∃ u : UserDoc, (register demoStore0 3 ⟨"c@z.org", "p", none⟩).2.users
        = demoStore0.users ++ [u] ∧
      u.name = some (defaultName none "c@z.org") ∧
      ∃ d ud, (register demoStore0 3 ⟨"c@z.org", "p", none⟩).1 = .ok d ∧
        d.lookup "user" = some (.vDoc ud) ∧
        ud.lookup "name" = some (.vStr (defaultName none "c@z.org"))) ∧
    defaultName none "c@z.org" = localPart "c@z.org" :=
  ⟨(C3_register_default_name demoStore0 3 ⟨"c@z.org", "p", none⟩ rfl).1,
   (C3_register_default_name demoStore0 3 ⟨"c@z.org", "p", none⟩ rfl).2.1 rfl⟩

/-- The User record inserted by the fresh branch of google_auth
(src/main.py lines 92-99). -/
def googleUser (s : UserStore) (n : Nat) (tkn : String) : UserDoc :=
  { oid := s.nextOid
    email := googleEmail tkn
    name := some "Google User"
    password_hash := none
    auth_provider := "google"
    created_at := n
    updated_at := n }

/-- Reduction of google_auth when a User with the derived email exists. -/
theorem google_auth_found (s : UserStore) (n : Nat) (tkn : String)
    (u : UserDoc) (h : findUserByEmail s (googleEmail tkn) = some u) :
    google_auth s n tkn
      = ([("token", .vStr (oidStr u.oid)),
          ("user", .vDoc [("id", .vStr (oidStr u.oid)),
                          ("email", .vStr u.email),
                          ("name", optStr u.name)])], s) := by
  simp only [google_auth]
  rw [h]

/-- Reduction of google_auth when no User with the derived email exists. -/
theorem google_auth_fresh (s : UserStore) (n : Nat) (tkn : String)
    (h : findUserByEmail s (googleEmail tkn) = none) :
    google_auth s n tkn
      = ([("token", .vStr (oidStr s.nextOid)),
          ("user", .vDoc [("id", .vStr (oidStr s.nextOid)),
                          ("email", .vStr (googleEmail tkn)),
                          ("name", optStr (some "Google User"))])],
         ⟨s.users ++ [googleUser s n tkn], s.nextOid + 1⟩) := by
  simp only [google_auth]
  rw [h]
  rfl

/-- C4: two google_auth calls whose tokens share the same first six
characters return the same user.id (which is an actual id), and when no
User with the derived email existed beforehand, the first call inserts
exactly one User record and the second call inserts none. -/
theorem C4_google_auth_idempotent (s : UserStore) (n1 n2 : Nat)
    (t1 t2 : String) (h6 : take6 t1 = take6 t2) :
    userIdOf (google_auth s n1 t1).1
        = userIdOf (google_auth (google_auth s n1 t1).2 n2 t2).1 ∧
    (userIdOf (google_auth s n1 t1).1).isSome = true ∧
    (findUserByEmail s (googleEmail t1) = none →
      (∃ u : UserDoc, (google_auth s n1 t1).2.users = s.users ++ [u]) ∧
      (google_auth (google_auth s n1 t1).2 n2 t2).2
        = (google_auth s n1 t1).2) := by
  have hem : googleEmail t1 = googleEmail t2 := by
    unfold googleEmail
    rw [h6]
  cases hfind : findUserByEmail s (googleEmail t1) with
  | some u =>
    have hfind2 : findUserByEmail s (googleEmail t2) = some u := by
      rw [← hem]
      exact hfind
    have h1 := google_auth_found s n1 t1 u hfind
    have h2 := google_auth_found s n2 t2 u hfind2
    refine ⟨?_, ?_, ?_⟩
    · rw [h1]
      show _ = userIdOf (google_auth s n2 t2).1
      rw [h2]
    · rw [h1]
      rfl
    · intro hnone
      exact absurd hnone (by simp)
  | none =>
    have h1 := google_auth_fresh s n1 t1 hfind
    have hu0 : ((googleUser s n1 t1).email == googleEmail t2) = true := by
      show (googleEmail t1 == googleEmail t2) = true
      rw [hem]
      exact beq_self_eq_true _
    have hfind2 : findUserByEmail
        ⟨s.users ++ [googleUser s n1 t1], s.nextOid + 1⟩ (googleEmail t2)
        = some (googleUser s n1 t1) := by
      show (s.users ++ [googleUser s n1 t1]).find?
        (fun u => u.email == googleEmail t2) = _
      rw [List.find?_append]
      have hA : s.users.find? (fun u => u.email == googleEmail t2) = none := by
        rw [← hem]
        exact hfind
      rw [hA]
      simp only [Option.none_or, List.find?, hu0]
    have h2 := google_auth_found
      ⟨s.users ++ [googleUser s n1 t1], s.nextOid + 1⟩ n2 t2
      (googleUser s n1 t1) hfind2
    refine ⟨?_, ?_, ?_⟩
    · rw [h1]
      show _ = userIdOf (google_auth
        ⟨s.users ++ [googleUser s n1 t1], s.nextOid + 1⟩ n2 t2).1
      rw [h2]
      rfl
    · rw [h1]
      rfl
    · intro _
      constructor
      · exact ⟨googleUser s n1 t1, by rw [h1]⟩
      · rw [h1]
        show (google_auth
          ⟨s.users ++ [googleUser s n1 t1], s.nextOid + 1⟩ n2 t2).2 = _
        rw [h2]

theorem C4_google_auth_idempotent_witness :
    (userIdOf (google_auth demoStore0 1 "token-abc").1
        = userIdOf
            (google_auth (google_auth demoStore0 1 "token-abc").2
              2 "token-xyz").1) ∧
    ((∃ u : UserDoc, (google_auth demoStore0 1 "token-abc").2.users
        = demoStore0.users ++ [u]) ∧
      (google_auth (google_auth demoStore0 1 "token-abc").2 2 "token-xyz").2
        = (google_auth demoStore0 1 "token-abc").2) :=
  ⟨(C4_google_auth_idempotent demoStore0 1 2 "token-abc" "token-xyz"
      (by decide)).1,
   (C4_google_auth_idempotent demoStore0 1 2 "token-abc" "token-xyz"
      (by decide)).2.2 rfl⟩

/-! Vision handlers (src/main.py lines 103-145). -/

structure VisionRequest where
  user_id : String
  career : String
  lifestyle : String
  timeline : String
  deriving Repr, DecidableEq

/-- The summary template of create_vision (src/main.py lines 113-116). -/
def vision_summary (req : VisionRequest) : String :=
  "In " ++ req.timeline ++ ", you see yourself advancing in " ++ req.career ++
  ", living a " ++ req.lifestyle ++
  " lifestyle. You balance growth and wellbeing with clear, achievable milestones."

/-- The milestone templates of create_vision (src/main.py lines 117-122). -/
def vision_milestones (req : VisionRequest) : List String :=
  ["Define a 90-day plan toward " ++ req.career,
   "Establish weekly reflection ritual",
   "Ship one portfolio-worthy project",
   "Expand your network with 5 meaningful connections"]

/-- The fixed emotional line of create_vision (src/main.py line 123). -/
def emotional_impact_text : String :=
  "You feel confident, focused, and quietly proud of your momentum."

/-- Modelled from the spec: the vision collection behind the db handle from
database.py (not under src/), per the Document Store Adapter contract
(spec section 4.1). Documents are stored as-is; insert assigns the next
fresh ObjectId. -/
structure VisionStore where
  docs : List Doc
  nextOid : Nat
  deriving Repr

/-- The vision_doc dict built in create_vision (src/main.py lines 124-134). -/
def visionDocOf (req : VisionRequest) (now : Nat) : Doc :=
  [("user_id", .vStr req.user_id),
   ("career", .vStr req.career),
   ("lifestyle", .vStr req.lifestyle),
   ("timeline", .vStr req.timeline),
   ("summary", .vStr (vision_summary req)),
   ("milestones", .vList ((vision_milestones req).map .vStr)),
   ("emotional_impact", .vStr emotional_impact_text),
   ("created_at", .vDT now),
   ("updated_at", .vDT now)]

/-- create_vision (src/main.py lines 110-137): build the templated vision
document, insert it (which assigns the identity, appended to the dict), and
return the serialized document. -/
def create_vision (s : VisionStore) (now : Nat) (req : VisionRequest) :
    Doc × VisionStore :=
  let doc := visionDocOf req now ++ [("_id", .vOid s.nextOid)]
  (serialize_doc doc, ⟨s.docs ++ [doc], s.nextOid + 1⟩)

/-- The Mongo equality filter {"user_id": user_id} on a document. -/
def docUserIdIs (uid : String) (d : Doc) : Bool :=
  match d.lookup "user_id" with
  | some (.vStr s) => s == uid
  | _ => false

/-- The created_at sort key of a stored vision document (always present as
a datetime on documents created by create_vision). -/
def docCreatedAt (d : Doc) : Nat :=
  match d.lookup "created_at" with
  | some (.vDT t) => t
  | _ => 0

/-- Modelled from the spec: descending sort on a named field (spec 4.1,
find supports ordering by a named field); insertion step. -/
def insertByCreatedAtDesc (d : Doc) : List Doc → List Doc
  | [] => [d]
  | e :: es =>
    if docCreatedAt e ≤ docCreatedAt d then d :: e :: es
    else e :: insertByCreatedAtDesc d es

/-- Modelled from the spec: sort("created_at", -1) as insertion sort by the
created_at key, descending. -/
def sortByCreatedAtDesc : List Doc → List Doc
  | [] => []
  | d :: ds => insertByCreatedAtDesc d (sortByCreatedAtDesc ds)

/-- get_latest_vision (src/main.py lines 139-145): filter the vision
collection by user_id, sort by created_at descending, cap to one result;
return the empty object when nothing matches, else the serialized head. -/
def get_latest_vision (s : VisionStore) (user_id : String) : Doc :=
  let docs := (sortByCreatedAtDesc (s.docs.filter (docUserIdIs user_id))).take 1
  match docs with
  | [] => []
  | d :: _ => serialize_doc d

/-- C5: every Create Vision response (and the persisted record) carries
exactly 4 milestone strings, a summary mentioning the supplied career and
timeline, and the emotional_impact string; the three generated texts are
deterministic functions of the request, independent of store state and
clock. -/
theorem C5_create_vision_template (s : VisionStore) (now : Nat)
    (req : VisionRequest) :
    ((create_vision s now req).1.lookup "milestones"
        = some (.vList ((vision_milestones req).map .vStr)) ∧
      (vision_milestones req).length = 4) ∧
    (∃ a b : String, vision_summary req = a ++ req.career ++ b) ∧
    (∃ a b : String, vision_summary req = a ++ req.timeline ++ b) ∧
    (create_vision s now req).1.lookup "summary"
      = some (.vStr (vision_summary req)) ∧
    (create_vision s now req).1.lookup "emotional_impact"
      = some (.vStr emotional_impact_text) ∧
    (create_vision s now req).1.lookup "id"
      = some (.vStr (oidStr s.nextOid)) ∧
    (∀ (s' : VisionStore) (now' : Nat),
      (create_vision s' now' req).1.lookup "summary"
          = (create_vision s now req).1.lookup "summary" ∧
      (create_vision s' now' req).1.lookup "milestones"
          = (create_vision s now req).1.lookup "milestones" ∧
      (create_vision s' now' req).1.lookup "emotional_impact"
          = (create_vision s now req).1.lookup "emotional_impact") ∧
    (∃ dstored : Doc, (create_vision s now req).2.docs = s.docs ++ [dstored] ∧
      dstored.lookup "milestones"
        = some (.vList ((vision_milestones req).map .vStr)) ∧
      dstored.lookup "summary" = some (.vStr (vision_summary req)) ∧
      dstored.lookup "emotional_impact"
        = some (.vStr emotional_impact_text)) := by
  refine ⟨⟨rfl, rfl⟩, ?_, ?_, rfl, rfl, rfl, ?_, ?_⟩
  · exact ⟨"In " ++ req.timeline ++ ", you see yourself advancing in ",
      ", living a " ++ req.lifestyle ++
        " lifestyle. You balance growth and wellbeing with clear, achievable milestones.",
      by simp [vision_summary, String.append_assoc]⟩
  · exact ⟨"In ",
      ", you see yourself advancing in " ++ req.career ++ ", living a " ++
        req.lifestyle ++
        " lifestyle. You balance growth and wellbeing with clear, achievable milestones.",
      by simp [vision_summary, String.append_assoc]⟩
  · intro s' now'
    exact ⟨rfl, rfl, rfl⟩
  · exact ⟨visionDocOf req now ++ [("_id", Value.vOid s.nextOid)],
      rfl, rfl, rfl, rfl⟩

/-! Sorting lemmas for get_latest_vision. -/

theorem insertByCreatedAtDesc_length (d : Doc) (l : List Doc) :
    (insertByCreatedAtDesc d l).length = l.length + 1 := by
  induction l with
  | nil => rfl
  | cons e es ih =>
    unfold insertByCreatedAtDesc
    by_cases h : docCreatedAt e ≤ docCreatedAt d
    · rw [if_pos h]
      rfl
    · rw [if_neg h]
      simp [ih]

theorem sortByCreatedAtDesc_length (l : List Doc) :
    (sortByCreatedAtDesc l).length = l.length := by
  induction l with
  | nil => rfl
  | cons d ds ih =>
    unfold sortByCreatedAtDesc
    rw [insertByCreatedAtDesc_length, ih]
    rfl

theorem insertByCreatedAtDesc_mem (d x : Doc) (l : List Doc) :
    x ∈ insertByCreatedAtDesc d l ↔ x = d ∨ x ∈ l := by
  induction l with
  | nil => simp [insertByCreatedAtDesc]
  | cons e es ih =>
    unfold insertByCreatedAtDesc
    by_cases h : docCreatedAt e ≤ docCreatedAt d
    · rw [if_pos h]
      simp
    · rw [if_neg h]
      simp only [List.mem_cons, ih]
      tauto

theorem sortByCreatedAtDesc_mem (x : Doc) (l : List Doc) :
    x ∈ sortByCreatedAtDesc l ↔ x ∈ l := by
  induction l with
  | nil => simp [sortByCreatedAtDesc]
  | cons d ds ih =>
    unfold sortByCreatedAtDesc
    rw [insertByCreatedAtDesc_mem]
    simp [ih]

theorem sortByCreatedAtDesc_head_max (l : List Doc) (d : Doc)
    (rest : List Doc) (h : sortByCreatedAtDesc l = d :: rest) :
    d ∈ l ∧ ∀ x ∈ l, docCreatedAt x ≤ docCreatedAt d := by
  induction l generalizing d rest with
  | nil => exact absurd h (by simp [sortByCreatedAtDesc])
  | cons a as ih =>
    unfold sortByCreatedAtDesc at h
    cases hs : sortByCreatedAtDesc as with
    | nil =>
      have has : as = [] := by
        have := sortByCreatedAtDesc_length as
        rw [hs] at this
        exact List.length_eq_zero.mp this.symm
      rw [hs] at h
      unfold insertByCreatedAtDesc at h
      cases h
      subst has
      exact ⟨List.mem_singleton_self a, by simp⟩
    | cons b bs =>
      obtain ⟨hbmem, hbmax⟩ := ih b bs hs
      rw [hs] at h
      unfold insertByCreatedAtDesc at h
      by_cases hcmp : docCreatedAt b ≤ docCreatedAt a
      · rw [if_pos hcmp] at h
        cases h
        constructor
        · exact List.mem_cons_self a as
        · intro x hx
          cases List.mem_cons.mp hx with
          | inl hxa => rw [hxa]
          | inr hxs => exact le_trans (hbmax x hxs) hcmp
      · rw [if_neg hcmp] at h
        rw [List.cons.injEq] at h
        constructor
        · rw [← h.1]
          exact List.mem_cons_of_mem a hbmem
        · intro x hx
          rw [← h.1]
          cases List.mem_cons.mp hx with
          | inl hxa =>
            rw [hxa]
            exact le_of_lt (lt_of_not_le hcmp)
          | inr hxs => exact hbmax x hxs

/-- C6: Get Latest Vision returns the serialized Vision whose created_at is
maximal among the user's visions, and the empty object when the user has
none. -/
theorem C6_get_latest_vision (s : VisionStore) (uid : String) :
    (s.docs.filter (docUserIdIs uid) = [] → get_latest_vision s uid = []) ∧
    (s.docs.filter (docUserIdIs uid) ≠ [] →
      ∃ d ∈ s.docs.filter (docUserIdIs uid),
        get_latest_vision s uid = serialize_doc d ∧
        ∀ x ∈ s.docs.filter (docUserIdIs uid),
          docCreatedAt x ≤ docCreatedAt d) := by
  constructor
  · intro h
    unfold get_latest_vision
    rw [h]
    rfl
  · intro hne
    cases hs : sortByCreatedAtDesc (s.docs.filter (docUserIdIs uid)) with
    | nil =>
      have := sortByCreatedAtDesc_length (s.docs.filter (docUserIdIs uid))
      rw [hs] at this
      exact absurd (List.length_eq_zero.mp this.symm) hne
    | cons d rest =>
      obtain ⟨hdmem, hdmax⟩ :=
        sortByCreatedAtDesc_head_max _ d rest hs
      refine ⟨d, hdmem, ?_, hdmax⟩
      unfold get_latest_vision
      rw [hs]
      rfl

/-! Goal CRUD (src/main.py lines 148-192, src/schemas.py lines 25-31). -/

/-- GoalCreate (src/main.py lines 149-155): progress declared as
Field(0, ge=0, le=100), matching the Goal schema (src/schemas.py line 30). -/
structure GoalCreate where
  user_id : String
  title : String
  description : Option String
  target_date : Option String
  progress : Int
  category : Option String
  deriving Repr, DecidableEq

/-- GoalUpdate (src/main.py lines 157-162): every field optional; progress,
when present, constrained to ge=0, le=100. -/
structure GoalUpdate where
  title : Option String
  description : Option String
  target_date : Option String
  progress : Option Int
  category : Option String
  deriving Repr, DecidableEq

/-- Pydantic validation of a GoalCreate body: FastAPI rejects a request
whose progress lies outside [0, 100] with a validation error before the
handler body runs (src/main.py line 154). -/
def validateGoalCreate (g : GoalCreate) : Except HTTPError GoalCreate :=
  if 0 ≤ g.progress ∧ g.progress ≤ 100 then .ok g
  else .error ⟨422, "validation error"⟩

/-- Pydantic validation of a GoalUpdate body: a present progress outside
[0, 100] is rejected before the handler body runs (src/main.py line 161). -/
def validateGoalUpdate (g : GoalUpdate) : Except HTTPError GoalUpdate :=
  match g.progress with
  | some p =>
    if 0 ≤ p ∧ p ≤ 100 then .ok g else .error ⟨422, "validation error"⟩
  | none => .ok g

/-- Modelled from the spec: the goal collection behind the db handle from
database.py (not under src/), per the Document Store Adapter contract
(spec section 4.1). -/
structure GoalStore where
  docs : List Doc
  nextOid : Nat
  deriving Repr

/-- The dict g.model_dump() plus timestamps built in create_goal
(src/main.py lines 171-173); model_dump keeps None values, stored as
null. -/
def goalDocOf (g : GoalCreate) (now : Nat) : Doc :=
  [("user_id", .vStr g.user_id),
   ("title", .vStr g.title),
   ("description", optStr g.description),
   ("target_date", optStr g.target_date),
   ("progress", .vInt g.progress),
   ("category", optStr g.category),
   ("created_at", .vDT now),
   ("updated_at", .vDT now)]

/-- create_goal handler body (src/main.py lines 169-176): insert the doc
(identity appended by insert_one) and return it serialized. -/
def create_goal (s : GoalStore) (now : Nat) (g : GoalCreate) :
    Doc × GoalStore :=
  let doc := goalDocOf g now ++ [("_id", .vOid s.nextOid)]
  (serialize_doc doc, ⟨s.docs ++ [doc], s.nextOid + 1⟩)

/-- POST /api/goals as processed by FastAPI: validation, then handler. -/
def create_goal_endpoint (s : GoalStore) (now : Nat) (g : GoalCreate) :
    Except HTTPError Doc × GoalStore :=
  match validateGoalCreate g with
  | .error e => (.error e, s)
  | .ok g => (.ok (create_goal s now g).1, (create_goal s now g).2)

/-- The dict comprehension in update_goal (src/main.py line 180):
g.model_dump() in field declaration order, keeping only fields whose value
is not None. -/
def goalUpdateFields (g : GoalUpdate) : Doc :=
  (match g.title with | some v => [("title", Value.vStr v)] | none => []) ++
  (match g.description with
    | some v => [("description", Value.vStr v)] | none => []) ++
  (match g.target_date with
    | some v => [("target_date", Value.vStr v)] | none => []) ++
  (match g.progress with | some v => [("progress", Value.vInt v)] | none => []) ++
  (match g.category with | some v => [("category", Value.vStr v)] | none => [])

/-- Mongo $set merge: apply each supplied field to the document, leaving
every other field untouched (spec section 4.1: update is a merge, not a
replace). -/
def mongoSet (d : Doc) (updates : Doc) : Doc :=
  updates.foldl (fun acc p => setKey acc p.1 p.2) d

/-- The Mongo filter {"_id": ObjectId(goal_id)} on a document. -/
def docIdIs (oid : Nat) (d : Doc) : Bool :=
  match d.lookup "_id" with
  | some (.vOid n) => n == oid
  | _ => false

/-- Modelled from the spec: find_one_and_update with return_document set to
AFTER (src/main.py line 182): merge the update fields into the first
document matching the identity and return the post-update document; absent
result (and unchanged collection) when nothing matches. -/
def find_one_and_update : List Doc → Nat → Doc → Option Doc × List Doc
  | [], _, _ => (none, [])
  | d :: ds, oid, updates =>
    if docIdIs oid d then
      (some (mongoSet d updates), mongoSet d updates :: ds)
    else
      let r := find_one_and_update ds oid updates
      (r.1, d :: r.2)

/-- Modelled from the spec: delete_one removes at most one record matching
the identity and reports how many records were removed (spec section 4.1). -/
def delete_one : List Doc → Nat → Nat × List Doc
  | [], _ => (0, [])
  | d :: ds, oid =>
    if docIdIs oid d then (1, ds)
    else
      let r := delete_one ds oid
      (r.1, d :: r.2)

/-- update_goal handler body (src/main.py lines 178-185): build the merge
fields from the non-None request fields, stamp updated_at, apply
find_one_and_update, 404 when the identity resolves to nothing. -/
def update_goal (s : GoalStore) (now : Nat) (goal_id : Nat)
    (g : GoalUpdate) : Except HTTPError Doc × GoalStore :=
  let updates := goalUpdateFields g ++ [("updated_at", Value.vDT now)]
  let r := find_one_and_update s.docs goal_id updates
  match r.1 with
  | none => (.error ⟨404, "Goal not found"⟩, ⟨r.2, s.nextOid⟩)
  | some d => (.ok (serialize_doc d), ⟨r.2, s.nextOid⟩)

/-- PUT /api/goals/goal_id as processed by FastAPI: validation, then
handler. -/
def update_goal_endpoint (s : GoalStore) (now : Nat) (goal_id : Nat)
    (g : GoalUpdate) : Except HTTPError Doc × GoalStore :=
  match validateGoalUpdate g with
  | .error e => (.error e, s)
  | .ok g => update_goal s now goal_id g

/-- delete_goal handler (src/main.py lines 187-192): delete_one by
identity; 404 exactly when the deleted count is zero. -/
def delete_goal (s : GoalStore) (goal_id : Nat) :
    Except HTTPError Doc × GoalStore :=
  let r := delete_one s.docs goal_id
  if r.1 == 0 then (.error ⟨404, "Goal not found"⟩, ⟨r.2, s.nextOid⟩)
  else (.ok [("ok", Value.vBool true)], ⟨r.2, s.nextOid⟩)

/-! Lemmas about the goal update merge. -/

theorem mongoSet_append (d : Doc) (us1 us2 : Doc) :
    mongoSet d (us1 ++ us2) = mongoSet (mongoSet d us1) us2 :=
  List.foldl_append _ _ _ _

theorem lookup_mongoSet_not_mem (us : Doc) (d : Doc) (k : String)
    (h : ∀ p ∈ us, p.1 ≠ k) : (mongoSet d us).lookup k = d.lookup k := by
  induction us generalizing d with
  | nil => rfl
  | cons p ps ih =>
    have hstep : mongoSet d (p :: ps) = mongoSet (setKey d p.1 p.2) ps := rfl
    rw [hstep, ih (setKey d p.1 p.2) (fun q hq => h q (List.mem_cons_of_mem p hq)),
      lookup_setKey_ne _ _ _ _ (Ne.symm (h p (List.mem_cons_self p ps)))]

theorem mem_goalUpdateFields (g : GoalUpdate) (p : String × Value) :
    p ∈ goalUpdateFields g ↔
      (∃ v, g.title = some v ∧ p = ("title", .vStr v)) ∨
      (∃ v, g.description = some v ∧ p = ("description", .vStr v)) ∨
      (∃ v, g.target_date = some v ∧ p = ("target_date", .vStr v)) ∨
      (∃ v, g.progress = some v ∧ p = ("progress", .vInt v)) ∨
      (∃ v, g.category = some v ∧ p = ("category", .vStr v)) := by
  obtain ⟨t, de, td, pr, ca⟩ := g
  cases t <;> cases de <;> cases td <;> cases pr <;> cases ca <;>
    simp [goalUpdateFields]

theorem lookup_msguf_title (d : Doc) (g : GoalUpdate) :
    (mongoSet d (goalUpdateFields g)).lookup "title"
      = match g.title with
        | some v => some (Value.vStr v)
        | none => d.lookup "title" := by
  obtain ⟨t, de, td, pr, ca⟩ := g
  cases t <;> cases de <;> cases td <;> cases pr <;> cases ca <;>
    simp [mongoSet, goalUpdateFields, lookup_setKey_self, lookup_setKey_ne]

theorem lookup_msguf_description (d : Doc) (g : GoalUpdate) :
    (mongoSet d (goalUpdateFields g)).lookup "description"
      = match g.description with
        | some v => some (Value.vStr v)
        | none => d.lookup "description" := by
  obtain ⟨t, de, td, pr, ca⟩ := g
  cases t <;> cases de <;> cases td <;> cases pr <;> cases ca <;>
    simp [mongoSet, goalUpdateFields, lookup_setKey_self, lookup_setKey_ne]

theorem lookup_msguf_target_date (d : Doc) (g : GoalUpdate) :
    (mongoSet d (goalUpdateFields g)).lookup "target_date"
      = match g.target_date with
        | some v => some (Value.vStr v)
        | none => d.lookup "target_date" := by
  obtain ⟨t, de, td, pr, ca⟩ := g
  cases t <;> cases de <;> cases td <;> cases pr <;> cases ca <;>
    simp [mongoSet, goalUpdateFields, lookup_setKey_self, lookup_setKey_ne]

theorem lookup_msguf_progress (d : Doc) (g : GoalUpdate) :
    (mongoSet d (goalUpdateFields g)).lookup "progress"
      = match g.progress with
        | some v => some (Value.vInt v)
        | none => d.lookup "progress" := by
  obtain ⟨t, de, td, pr, ca⟩ := g
  cases t <;> cases de <;> cases td <;> cases pr <;> cases ca <;>
    simp [mongoSet, goalUpdateFields, lookup_setKey_self, lookup_setKey_ne]

theorem lookup_msguf_category (d : Doc) (g : GoalUpdate) :
    (mongoSet d (goalUpdateFields g)).lookup "category"
      = match g.category with
        | some v => some (Value.vStr v)
        | none => d.lookup "category" := by
  obtain ⟨t, de, td, pr, ca⟩ := g
  cases t <;> cases de <;> cases td <;> cases pr <;> cases ca <;>
    simp [mongoSet, goalUpdateFields, lookup_setKey_self, lookup_setKey_ne]

theorem lookup_msguf_other (d : Doc) (g : GoalUpdate) (k : String)
    (h1 : k ≠ "title") (h2 : k ≠ "description") (h3 : k ≠ "target_date")
    (h4 : k ≠ "progress") (h5 : k ≠ "category") :
    (mongoSet d (goalUpdateFields g)).lookup k = d.lookup k := by
  apply lookup_mongoSet_not_mem
  intro p hp
  rcases (mem_goalUpdateFields g p).mp hp with
    ⟨v, _, hv⟩ | ⟨v, _, hv⟩ | ⟨v, _, hv⟩ | ⟨v, _, hv⟩ | ⟨v, _, hv⟩ <;>
    (rw [hv]; intro hk)
  · exact h1 hk.symm
  · exact h2 hk.symm
  · exact h3 hk.symm
  · exact h4 hk.symm
  · exact h5 hk.symm

/-- The updates dict built by update_goal: supplied fields plus the fresh
updated_at stamp. -/
theorem mongoSet_updates_decomp (d : Doc) (g : GoalUpdate) (now : Nat) :
    mongoSet d (goalUpdateFields g ++ [("updated_at", Value.vDT now)])
      = setKey (mongoSet d (goalUpdateFields g)) "updated_at" (.vDT now) := by
  rw [mongoSet_append]
  rfl

/-! Lemmas about find_one_and_update and delete_one. -/

theorem fou_fst (docs : List Doc) (oid : Nat) (updates : Doc) :
    (find_one_and_update docs oid updates).1
      = (docs.find? (docIdIs oid)).map (fun d => mongoSet d updates) := by
  induction docs with
  | nil => rfl
  | cons d ds ih =>
    unfold find_one_and_update
    cases hd : docIdIs oid d with
    | true => simp [List.find?, hd]
    | false => simp [List.find?, hd, ih]

theorem fou_snd_none (docs : List Doc) (oid : Nat) (updates : Doc)
    (h : docs.find? (docIdIs oid) = none) :
    (find_one_and_update docs oid updates).2 = docs := by
  induction docs with
  | nil => rfl
  | cons d ds ih =>
    unfold find_one_and_update
    cases hd : docIdIs oid d with
    | true => simp [List.find?, hd] at h
    | false =>
      simp only [List.find?, hd] at h
      simp [hd, ih h]

theorem fou_snd_mem (docs : List Doc) (oid : Nat) (updates : Doc) :
    ∀ x ∈ (find_one_and_update docs oid updates).2,
      x ∈ docs ∨ ∃ d ∈ docs, x = mongoSet d updates := by
  induction docs with
  | nil => simp [find_one_and_update]
  | cons d ds ih =>
    intro x hx
    unfold find_one_and_update at hx
    cases hd : docIdIs oid d with
    | true =>
      rw [hd] at hx
      simp only [if_true] at hx
      cases List.mem_cons.mp hx with
      | inl h => exact Or.inr ⟨d, List.mem_cons_self d ds, h⟩
      | inr h => exact Or.inl (List.mem_cons_of_mem d h)
    | false =>
      rw [hd] at hx
      simp only [Bool.false_eq_true, if_false] at hx
      cases List.mem_cons.mp hx with
      | inl h => exact Or.inl (h ▸ List.mem_cons_self d ds)
      | inr h =>
        cases ih x h with
        | inl hm => exact Or.inl (List.mem_cons_of_mem d hm)
        | inr hm =>
          obtain ⟨e, he, hex⟩ := hm
          exact Or.inr ⟨e, List.mem_cons_of_mem d he, hex⟩

theorem fou_some_mem (docs : List Doc) (oid : Nat) (updates : Doc)
    (d : Doc) (h : docs.find? (docIdIs oid) = some d) :
    mongoSet d updates ∈ (find_one_and_update docs oid updates).2 := by
  induction docs with
  | nil => simp [List.find?] at h
  | cons e es ih =>
    unfold find_one_and_update
    cases hd : docIdIs oid e with
    | true =>
      simp only [List.find?, hd] at h
      cases h
      simp
    | false =>
      simp only [List.find?, hd] at h
      simp only [Bool.false_eq_true, if_false]
      exact List.mem_cons_of_mem e (ih h)

theorem delete_one_le_one (docs : List Doc) (oid : Nat) :
    (delete_one docs oid).1 ≤ 1 := by
  induction docs with
  | nil => exact Nat.zero_le 1
  | cons d ds ih =>
    unfold delete_one
    cases hd : docIdIs oid d with
    | true => simp
    | false => simpa using ih

theorem delete_one_zero_iff (docs : List Doc) (oid : Nat) :
    (delete_one docs oid).1 = 0 ↔ docs.find? (docIdIs oid) = none := by
  induction docs with
  | nil => simp [delete_one, List.find?]
  | cons d ds ih =>
    unfold delete_one
    cases hd : docIdIs oid d with
    | true => simp [List.find?, hd]
    | false => simpa [List.find?, hd] using ih

theorem delete_one_none_snd (docs : List Doc) (oid : Nat)
    (h : docs.find? (docIdIs oid) = none) :
    (delete_one docs oid).2 = docs := by
  induction docs with
  | nil => rfl
  | cons d ds ih =>
    unfold delete_one
    cases hd : docIdIs oid d with
    | true => simp [List.find?, hd] at h
    | false =>
      simp only [List.find?, hd] at h
      simp [hd, ih h]

theorem delete_one_length (docs : List Doc) (oid : Nat) :
    docs.length = (delete_one docs oid).2.length + (delete_one docs oid).1 := by
  induction docs with
  | nil => rfl
  | cons d ds ih =>
    unfold delete_one
    cases hd : docIdIs oid d with
    | true => simp
    | false =>
      simp only [Bool.false_eq_true, if_false, List.length_cons]
      omega

/-- Zeta-expanded form of update_goal, for rewriting under a resolved
find_one_and_update result. -/
theorem update_goal_eq_match (s : GoalStore) (now gid : Nat)
    (g : GoalUpdate) :
    update_goal s now gid g
      = match (find_one_and_update s.docs gid
          (goalUpdateFields g ++ [("updated_at", Value.vDT now)])).1 with
        | none => (.error ⟨404, "Goal not found"⟩,
            ⟨(find_one_and_update s.docs gid
              (goalUpdateFields g ++ [("updated_at", Value.vDT now)])).2,
             s.nextOid⟩)
        | some d => (.ok (serialize_doc d),
            ⟨(find_one_and_update s.docs gid
              (goalUpdateFields g ++ [("updated_at", Value.vDT now)])).2,
             s.nextOid⟩) := rfl

theorem update_goal_snd_docs (s : GoalStore) (now gid : Nat)
    (g : GoalUpdate) :
    (update_goal s now gid g).2.docs
      = (find_one_and_update s.docs gid
          (goalUpdateFields g ++ [("updated_at", Value.vDT now)])).2 := by
  rw [update_goal_eq_match]
  cases (find_one_and_update s.docs gid
    (goalUpdateFields g ++ [("updated_at", Value.vDT now)])).1 <;> rfl

/-- validateGoalUpdate only succeeds on the request itself, with a present
progress in range. -/
theorem validateGoalUpdate_ok (g g' : GoalUpdate)
    (h : validateGoalUpdate g = .ok g') :
    g' = g ∧ ∀ p, g.progress = some p → 0 ≤ p ∧ p ≤ 100 := by
  obtain ⟨t, de, td, pr, ca⟩ := g
  cases pr with
  | none =>
    cases h
    exact ⟨rfl, fun p hpp => by cases hpp⟩
  | some p =>
    by_cases hr : 0 ≤ p ∧ p ≤ 100
    · have h2 : (if 0 ≤ p ∧ p ≤ 100
          then (Except.ok (⟨t, de, td, some p, ca⟩ : GoalUpdate)
            : Except HTTPError GoalUpdate)
          else .error ⟨422, "validation error"⟩) = .ok g' := h
      rw [if_pos hr] at h2
      cases h2
      refine ⟨rfl, fun q hq => ?_⟩
      cases hq
      exact hr
    · have h2 : (if 0 ≤ p ∧ p ≤ 100
          then (Except.ok (⟨t, de, td, some p, ca⟩ : GoalUpdate)
            : Except HTTPError GoalUpdate)
          else .error ⟨422, "validation error"⟩) = .ok g' := h
      rw [if_neg hr] at h2
      cases h2

/-- Every persisted Goal document has progress in [0, 100]. -/
def goalProgressInv (s : GoalStore) : Prop :=
  ∀ d ∈ s.docs, ∀ p : Int,
    d.lookup "progress" = some (.vInt p) → 0 ≤ p ∧ p ≤ 100

/-- C7: an out-of-range progress is rejected by validation with no store
mutation, for both create and update; and both endpoints preserve the
invariant that every persisted Goal has progress in [0, 100]. -/
theorem C7_goal_progress_bound (s : GoalStore) (now gid : Nat)
    (g : GoalCreate) (gu : GoalUpdate) :
    (¬(0 ≤ g.progress ∧ g.progress ≤ 100) →
      (create_goal_endpoint s now g).1 = .error ⟨422, "validation error"⟩ ∧
      (create_goal_endpoint s now g).2 = s) ∧
    (∀ p, gu.progress = some p → ¬(0 ≤ p ∧ p ≤ 100) →
      (update_goal_endpoint s now gid gu).1
          = .error ⟨422, "validation error"⟩ ∧
      (update_goal_endpoint s now gid gu).2 = s) ∧
    (goalProgressInv s →
      goalProgressInv (create_goal_endpoint s now g).2 ∧
      goalProgressInv (update_goal_endpoint s now gid gu).2) := by
  refine ⟨?_, ?_, ?_⟩
  · intro hbad
    have h1 : create_goal_endpoint s now g
        = (.error ⟨422, "validation error"⟩, s) := by
      unfold create_goal_endpoint validateGoalCreate
      rw [if_neg hbad]
    exact ⟨by rw [h1], by rw [h1]⟩
  · intro p hp hbad
    obtain ⟨t, de, td, pr, ca⟩ := gu
    change pr = some p at hp
    subst hp
    have h2 : validateGoalUpdate ⟨t, de, td, some p, ca⟩
        = .error ⟨422, "validation error"⟩ := by
      show (if 0 ≤ p ∧ p ≤ 100
          then (Except.ok (⟨t, de, td, some p, ca⟩ : GoalUpdate)
            : Except HTTPError GoalUpdate)
          else .error ⟨422, "validation error"⟩) = _
      rw [if_neg hbad]
    have h3 : update_goal_endpoint s now gid ⟨t, de, td, some p, ca⟩
        = (.error ⟨422, "validation error"⟩, s) := by
      unfold update_goal_endpoint
      rw [h2]
    exact ⟨by rw [h3], by rw [h3]⟩
  · intro hinv
    constructor
    · by_cases hr : 0 ≤ g.progress ∧ g.progress ≤ 100
      · have h1 : create_goal_endpoint s now g
            = (.ok (create_goal s now g).1, (create_goal s now g).2) := by
          unfold create_goal_endpoint validateGoalCreate
          rw [if_pos hr]
        rw [h1]
        intro d hd p hp
        have hd2 : d ∈ s.docs
            ++ [goalDocOf g now ++ [("_id", .vOid s.nextOid)]] := hd
        cases List.mem_append.mp hd2 with
        | inl hold => exact hinv d hold p hp
        | inr hnew =>
          rw [List.mem_singleton.mp hnew] at hp
          have hstep : (goalDocOf g now
              ++ [("_id", Value.vOid s.nextOid)]).lookup "progress"
              = some (.vInt g.progress) := rfl
          rw [hstep] at hp
          injection hp with hp1
          injection hp1 with hp2
          rw [← hp2]
          exact hr
      · have h1 : create_goal_endpoint s now g
            = (.error ⟨422, "validation error"⟩, s) := by
          unfold create_goal_endpoint validateGoalCreate
          rw [if_neg hr]
        rw [h1]
        exact hinv
    · cases hval : validateGoalUpdate gu with
      | error e =>
        have h1 : update_goal_endpoint s now gid gu = (.error e, s) := by
          unfold update_goal_endpoint
          rw [hval]
        rw [h1]
        exact hinv
      | ok gu' =>
        obtain ⟨heq, hrange⟩ := validateGoalUpdate_ok gu gu' hval
        subst heq
        have h1 : update_goal_endpoint s now gid gu'
            = update_goal s now gid gu' := by
          unfold update_goal_endpoint
          rw [hval]
        rw [h1]
        intro d hd p hp
        rw [update_goal_snd_docs] at hd
        cases fou_snd_mem s.docs gid
          (goalUpdateFields gu' ++ [("updated_at", Value.vDT now)]) d hd with
        | inl hold => exact hinv d hold p hp
        | inr hnew =>
          obtain ⟨e, he, rfl⟩ := hnew
          rw [mongoSet_updates_decomp,
            lookup_setKey_ne _ _ _ _ (by decide),
            lookup_msguf_progress] at hp
          cases hgp : gu'.progress with
          | none =>
            rw [hgp] at hp
            exact hinv e he p hp
          | some q =>
            rw [hgp] at hp
            injection hp with hp1
            injection hp1 with hp2
            rw [← hp2]
            exact hrange q hgp

/-- Zeta-expanded form of delete_goal. -/
theorem delete_goal_eq (s : GoalStore) (gid : Nat) :
    delete_goal s gid
      = if (delete_one s.docs gid).1 == 0
        then (.error ⟨404, "Goal not found"⟩,
          ⟨(delete_one s.docs gid).2, s.nextOid⟩)
        else (.ok [("ok", Value.vBool true)],
          ⟨(delete_one s.docs gid).2, s.nextOid⟩) := rfl

theorem delete_goal_snd_docs (s : GoalStore) (gid : Nat) :
    (delete_goal s gid).2.docs = (delete_one s.docs gid).2 := by
  rw [delete_goal_eq]
  by_cases hc : ((delete_one s.docs gid).1 == 0) = true
  · rw [if_pos hc]
  · rw [if_neg hc]

/-- C8: updating an existing Goal with only progress = 50 returns and
persists a document whose title, description, target_date, category and
created_at are unchanged, whose progress is 50, and whose updated_at is the
fresh stamp. -/
theorem C8_partial_update_progress50 (s : GoalStore) (now gid : Nat)
    (d : Doc) (h : s.docs.find? (docIdIs gid) = some d) :
    ∃ d' : Doc,
      (update_goal s now gid ⟨none, none, none, some 50, none⟩).1
          = .ok (serialize_doc d') ∧
      d' ∈ (update_goal s now gid ⟨none, none, none, some 50, none⟩).2.docs ∧
      d'.lookup "title" = d.lookup "title" ∧
      d'.lookup "description" = d.lookup "description" ∧
      d'.lookup "target_date" = d.lookup "target_date" ∧
      d'.lookup "category" = d.lookup "category" ∧
      d'.lookup "created_at" = d.lookup "created_at" ∧
      d'.lookup "progress" = some (.vInt 50) ∧
      d'.lookup "updated_at" = some (.vDT now) := by
  have hfou : (find_one_and_update s.docs gid
      (goalUpdateFields ⟨none, none, none, some 50, none⟩
        ++ [("updated_at", Value.vDT now)])).1
      = some (mongoSet d (goalUpdateFields ⟨none, none, none, some 50, none⟩
        ++ [("updated_at", Value.vDT now)])) := by
    rw [fou_fst, h]
    rfl
  refine ⟨mongoSet d (goalUpdateFields ⟨none, none, none, some 50, none⟩
      ++ [("updated_at", Value.vDT now)]), ?_, ?_, ?_, ?_, ?_, ?_, ?_, ?_, ?_⟩
  · rw [update_goal_eq_match, hfou]
  · rw [update_goal_snd_docs]
    exact fou_some_mem s.docs gid _ d h
  · rw [mongoSet_updates_decomp, lookup_setKey_ne _ _ _ _ (by decide),
      lookup_msguf_title]
  · rw [mongoSet_updates_decomp, lookup_setKey_ne _ _ _ _ (by decide),
      lookup_msguf_description]
  · rw [mongoSet_updates_decomp, lookup_setKey_ne _ _ _ _ (by decide),
      lookup_msguf_target_date]
  · rw [mongoSet_updates_decomp, lookup_setKey_ne _ _ _ _ (by decide),
      lookup_msguf_category]
  · rw [mongoSet_updates_decomp, lookup_setKey_ne _ _ _ _ (by decide),
      lookup_msguf_other d _ "created_at" (by decide) (by decide) (by decide)
        (by decide) (by decide)]
  · rw [mongoSet_updates_decomp, lookup_setKey_ne _ _ _ _ (by decide),
      lookup_msguf_progress]
  · rw [mongoSet_updates_decomp, lookup_setKey_self]

/-- C9: updating or deleting a Goal whose identity resolves to no record
fails with HTTP 404 and leaves the collection unchanged; delete removes at
most one record and reports 404 exactly when the deleted count is zero. -/
theorem C9_goal_not_found (s : GoalStore) (now gid : Nat) (g : GoalUpdate) :
    (s.docs.find? (docIdIs gid) = none →
      (update_goal s now gid g).1 = .error ⟨404, "Goal not found"⟩ ∧
      (update_goal s now gid g).2.docs = s.docs ∧
      (delete_goal s gid).1 = .error ⟨404, "Goal not found"⟩ ∧
      (delete_goal s gid).2.docs = s.docs) ∧
    (delete_one s.docs gid).1 ≤ 1 ∧
    ((delete_goal s gid).1 = .error ⟨404, "Goal not found"⟩ ↔
      (delete_one s.docs gid).1 = 0) ∧
    s.docs.length = (delete_goal s gid).2.docs.length
      + (delete_one s.docs gid).1 := by
  refine ⟨?_, delete_one_le_one s.docs gid, ?_, ?_⟩
  · intro h
    have hfou : (find_one_and_update s.docs gid
        (goalUpdateFields g ++ [("updated_at", Value.vDT now)])).1 = none := by
      rw [fou_fst, h]
      rfl
    have hc : (delete_one s.docs gid).1 = 0 :=
      (delete_one_zero_iff s.docs gid).mpr h
    refine ⟨?_, ?_, ?_, ?_⟩
    · rw [update_goal_eq_match, hfou]
    · rw [update_goal_snd_docs]
      exact fou_snd_none s.docs gid _ h
    · rw [delete_goal_eq, hc]
      rfl
    · rw [delete_goal_snd_docs]
      exact delete_one_none_snd s.docs gid h
  · by_cases hc : (delete_one s.docs gid).1 = 0
    · constructor
      · intro _
        exact hc
      · intro _
        rw [delete_goal_eq, hc]
        rfl
    · constructor
      · intro hdel
        have hb : ((delete_one s.docs gid).1 == 0) = false := by
          simpa using hc
        rw [delete_goal_eq, hb] at hdel
        simp at hdel
      · intro h0
        exact absurd h0 hc
  · rw [delete_goal_snd_docs]
    exact delete_one_length s.docs gid

/-- C10: a Goal update excludes null-valued fields from the merge, so a
field supplied as null (or absent) is left untouched, no field can be
cleared to null, an update supplying no fields at all still succeeds on an
existing Goal, and only updated_at (and the supplied fields) change. -/
theorem C10_update_excludes_null_fields (s : GoalStore) (now gid : Nat)
    (g : GoalUpdate) (d : Doc) (h : s.docs.find? (docIdIs gid) = some d) :
    ∃ d' : Doc,
      (update_goal s now gid g).1 = .ok (serialize_doc d') ∧
      (g.title = none → d'.lookup "title" = d.lookup "title") ∧
      (g.description = none →
        d'.lookup "description" = d.lookup "description") ∧
      (g.target_date = none →
        d'.lookup "target_date" = d.lookup "target_date") ∧
      (g.progress = none → d'.lookup "progress" = d.lookup "progress") ∧
      (g.category = none → d'.lookup "category" = d.lookup "category") ∧
      (∀ k, k ≠ "title" → k ≠ "description" → k ≠ "target_date" →
        k ≠ "progress" → k ≠ "category" → k ≠ "updated_at" →
        d'.lookup k = d.lookup k) ∧
      d'.lookup "updated_at" = some (.vDT now) ∧
      (∀ k : String, d'.lookup k = some Value.vNull →
        d.lookup k = some Value.vNull) := by
  have hfou : (find_one_and_update s.docs gid
      (goalUpdateFields g ++ [("updated_at", Value.vDT now)])).1
      = some (mongoSet d
        (goalUpdateFields g ++ [("updated_at", Value.vDT now)])) := by
    rw [fou_fst, h]
    rfl
  refine ⟨mongoSet d (goalUpdateFields g ++ [("updated_at", Value.vDT now)]),
    ?_, ?_, ?_, ?_, ?_, ?_, ?_, ?_, ?_⟩
  · rw [update_goal_eq_match, hfou]
  · intro hn
    rw [mongoSet_updates_decomp, lookup_setKey_ne _ _ _ _ (by decide),
      lookup_msguf_title, hn]
  · intro hn
    rw [mongoSet_updates_decomp, lookup_setKey_ne _ _ _ _ (by decide),
      lookup_msguf_description, hn]
  · intro hn
    rw [mongoSet_updates_decomp, lookup_setKey_ne _ _ _ _ (by decide),
      lookup_msguf_target_date, hn]
  · intro hn
    rw [mongoSet_updates_decomp, lookup_setKey_ne _ _ _ _ (by decide),
      lookup_msguf_progress, hn]
  · intro hn
    rw [mongoSet_updates_decomp, lookup_setKey_ne _ _ _ _ (by decide),
      lookup_msguf_category, hn]
  · intro k h1 h2 h3 h4 h5 h6
    rw [mongoSet_updates_decomp, lookup_setKey_ne _ _ _ _ h6,
      lookup_msguf_other d g k h1 h2 h3 h4 h5]
  · rw [mongoSet_updates_decomp, lookup_setKey_self]
  · intro k hk
    by_cases h6 : k = "updated_at"
    · subst h6
      rw [mongoSet_updates_decomp, lookup_setKey_self] at hk
      simp at hk
    · rw [mongoSet_updates_decomp, lookup_setKey_ne _ _ _ _ h6] at hk
      by_cases h1 : k = "title"
      · subst h1
        rw [lookup_msguf_title] at hk
        cases hg : g.title with
        | none =>
          rw [hg] at hk
          exact hk
        | some v =>
          rw [hg] at hk
          simp at hk
      · by_cases h2 : k = "description"
        · subst h2
          rw [lookup_msguf_description] at hk
          cases hg : g.description with
          | none =>
            rw [hg] at hk
            exact hk
          | some v =>
            rw [hg] at hk
            simp at hk
        · by_cases h3 : k = "target_date"
          · subst h3
            rw [lookup_msguf_target_date] at hk
            cases hg : g.target_date with
            | none =>
              rw [hg] at hk
              exact hk
            | some v =>
              rw [hg] at hk
              simp at hk
          · by_cases h4 : k = "progress"
            · subst h4
              rw [lookup_msguf_progress] at hk
              cases hg : g.progress with
              | none =>
                rw [hg] at hk
                exact hk
              | some v =>
                rw [hg] at hk
                simp at hk
            · by_cases h5 : k = "category"
              · subst h5
                rw [lookup_msguf_category] at hk
                cases hg : g.category with
                | none =>
                  rw [hg] at hk
                  exact hk
                | some v =>
                  rw [hg] at hk
                  simp at hk
              · rw [lookup_msguf_other d g k h1 h2 h3 h4 h5] at hk
                exact hk

/-! Demo data and witnesses for the vision and goal claims. -/

def demoVisionDoc1 : Doc :=
  visionDocOf ⟨"u1", "Engineer", "Balanced", "5 years"⟩ 1
    ++ [("_id", Value.vOid 1)]

def demoVisionDoc2 : Doc :=
  visionDocOf ⟨"u1", "Artist", "Calm", "2 years"⟩ 5
    ++ [("_id", Value.vOid 2)]

def demoVisionDoc3 : Doc :=
  visionDocOf ⟨"u2", "Chef", "Busy", "1 year"⟩ 9
    ++ [("_id", Value.vOid 3)]

def demoVisionStore : VisionStore :=
  ⟨[demoVisionDoc1, demoVisionDoc2, demoVisionDoc3], 4⟩

theorem C6_get_latest_vision_witness :
    get_latest_vision demoVisionStore "u3" = [] ∧
    (∃ d ∈ demoVisionStore.docs.filter (docUserIdIs "u1"),
      get_latest_vision demoVisionStore "u1" = serialize_doc d ∧
      ∀ x ∈ demoVisionStore.docs.filter (docUserIdIs "u1"),
        docCreatedAt x ≤ docCreatedAt d) :=
  ⟨(C6_get_latest_vision demoVisionStore "u3").1 rfl,
   (C6_get_latest_vision demoVisionStore "u1").2 (by
      intro hh
      rw [show demoVisionStore.docs.filter (docUserIdIs "u1")
        = [demoVisionDoc1, demoVisionDoc2] from rfl] at hh
      simp at hh)⟩

def demoGoalDoc : Doc :=
  goalDocOf ⟨"u1", "Learn Lean", some "study", none, 40, some "edu"⟩ 2
    ++ [("_id", Value.vOid 1)]

def demoGoalStore : GoalStore := ⟨[demoGoalDoc], 2⟩

theorem demoGoalStore_inv : goalProgressInv demoGoalStore := by
  intro d hd p hp
  rw [show demoGoalStore.docs = [demoGoalDoc] from rfl] at hd
  rw [List.mem_singleton.mp hd] at hp
  rw [show demoGoalDoc.lookup "progress" = some (Value.vInt 40) from rfl] at hp
  injection hp with h1
  injection h1 with h2
  rw [← h2]
  exact ⟨by decide, by decide⟩

theorem C7_goal_progress_bound_witness :
    ((create_goal_endpoint demoGoalStore 3
        ⟨"u1", "t", none, none, 150, none⟩).1
        = .error ⟨422, "validation error"⟩ ∧
      (create_goal_endpoint demoGoalStore 3
        ⟨"u1", "t", none, none, 150, none⟩).2 = demoGoalStore) ∧
    ((update_goal_endpoint demoGoalStore 3 1
        ⟨none, none, none, some (-5), none⟩).1
        = .error ⟨422, "validation error"⟩ ∧
      (update_goal_endpoint demoGoalStore 3 1
        ⟨none, none, none, some (-5), none⟩).2 = demoGoalStore) ∧
    (goalProgressInv (create_goal_endpoint demoGoalStore 3
        ⟨"u1", "t", none, none, 150, none⟩).2 ∧
      goalProgressInv (update_goal_endpoint demoGoalStore 3 1
        ⟨none, none, none, some (-5), none⟩).2) :=
  ⟨(C7_goal_progress_bound demoGoalStore 3 1
      ⟨"u1", "t", none, none, 150, none⟩
      ⟨none, none, none, some (-5), none⟩).1 (by decide),
   (C7_goal_progress_bound demoGoalStore 3 1
      ⟨"u1", "t", none, none, 150, none⟩
      ⟨none, none, none, some (-5), none⟩).2.1 (-5) rfl (by decide),
   (C7_goal_progress_bound demoGoalStore 3 1
      ⟨"u1", "t", none, none, 150, none⟩
      ⟨none, none, none, some (-5), none⟩).2.2 demoGoalStore_inv⟩

theorem C8_partial_update_progress50_witness :
    ∃ d' : Doc,
      (update_goal demoGoalStore 7 1 ⟨none, none, none, some 50, none⟩).1
          = .ok (serialize_doc d') ∧
      d' ∈ (update_goal demoGoalStore 7 1
        ⟨none, none, none, some 50, none⟩).2.docs ∧
      d'.lookup "title" = demoGoalDoc.lookup "title" ∧
      d'.lookup "description" = demoGoalDoc.lookup "description" ∧
      d'.lookup "target_date" = demoGoalDoc.lookup "target_date" ∧
      d'.lookup "category" = demoGoalDoc.lookup "category" ∧
      d'.lookup "created_at" = demoGoalDoc.lookup "created_at" ∧
      d'.lookup "progress" = some (.vInt 50) ∧
      d'.lookup "updated_at" = some (.vDT 7) :=
  C8_partial_update_progress50 demoGoalStore 7 1 demoGoalDoc rfl

theorem C9_goal_not_found_witness :
    ((update_goal demoGoalStore 3 9 ⟨none, none, none, some 50, none⟩).1
        = .error ⟨404, "Goal not found"⟩ ∧
      (update_goal demoGoalStore 3 9
        ⟨none, none, none, some 50, none⟩).2.docs = demoGoalStore.docs ∧
      (delete_goal demoGoalStore 9).1 = .error ⟨404, "Goal not found"⟩ ∧
      (delete_goal demoGoalStore 9).2.docs = demoGoalStore.docs) ∧
    ((delete_goal demoGoalStore 9).1 = .error ⟨404, "Goal not found"⟩ ↔
      (delete_one demoGoalStore.docs 9).1 = 0) :=
  ⟨(C9_goal_not_found demoGoalStore 3 9
      ⟨none, none, none, some 50, none⟩).1 rfl,
   (C9_goal_not_found demoGoalStore 3 9
      ⟨none, none, none, some 50, none⟩).2.2.1⟩

theorem C10_update_excludes_null_fields_witness :
    ∃ d' : Doc,
      (update_goal demoGoalStore 7 1 ⟨none, none, none, none, none⟩).1
          = .ok (serialize_doc d') ∧
      ((⟨none, none, none, none, none⟩ : GoalUpdate).title = none →
        d'.lookup "title" = demoGoalDoc.lookup "title") ∧
      ((⟨none, none, none, none, none⟩ : GoalUpdate).description = none →
        d'.lookup "description" = demoGoalDoc.lookup "description") ∧
      ((⟨none, none, none, none, none⟩ : GoalUpdate).target_date = none →
        d'.lookup "target_date" = demoGoalDoc.lookup "target_date") ∧
      ((⟨none, none, none, none, none⟩ : GoalUpdate).progress = none →
        d'.lookup "progress" = demoGoalDoc.lookup "progress") ∧
      ((⟨none, none, none, none, none⟩ : GoalUpdate).category = none →
        d'.lookup "category" = demoGoalDoc.lookup "category") ∧
      (∀ k, k ≠ "title" → k ≠ "description" → k ≠ "target_date" →
        k ≠ "progress" → k ≠ "category" → k ≠ "updated_at" →
        d'.lookup k = demoGoalDoc.lookup k) ∧
      d'.lookup "updated_at" = some (.vDT 7) ∧
      (∀ k : String, d'.lookup k = some Value.vNull →
        demoGoalDoc.lookup k = some Value.vNull) :=
  C10_update_excludes_null_fields demoGoalStore 7 1
    ⟨none, none, none, none, none⟩ demoGoalDoc rfl
